import Mathlib

/-!
Shallow embedding of the Reservation Ledger core of the room-booking backend
(`src/backend/src/services/booking.service.ts`): the `BookingService` class
with `createBooking`, `closeBooking` and `getAllBookings`, operating on the
`bookings` table (modelled as a list of rows) and the `rooms` table.

Dates: the service parses the incoming date strings with `new Date(...)`;
a string either fails to parse (`isNaN(d.getTime())`) or yields a comparable
time value.  We model an incoming date string by its parse outcome
(`DateStr.invalid` or `DateStr.valid v` with `v : Int` the time value); dates
stored in the table are the parsed values, which is what the SQL comparisons
`start_date < $2`, `end_date > $3` compare.

Transactions: `createBooking` issues `BEGIN` / locked `SELECT` / `INSERT` /
`COMMIT` / `ROLLBACK` queries in a fixed order; we record the sequence of
issued storage operations in a trace, and expose two failure oracles
(`insertFails`, `commitFails`) standing for a storage error thrown by the
`INSERT` or the `COMMIT` query, so that every error path of the `try/catch`
block is represented.  A rolled-back transaction leaves the committed store
unchanged; a committed one publishes the staged insert.
-/

/-- A row of the `bookings` table, as selected and returned by the service
(`id, user_id, room_id, start_date, end_date, status, created_at`). -/
structure Booking where
  id : String
  user_id : String
  room_id : String
  start_date : Int
  end_date : Int
  status : String
  created_at : Int
  deriving DecidableEq, Repr

/-- The `bookings` table: its committed rows. -/
abbrev Store := List Booking

/-- An incoming date string, by its `new Date(...)` parse outcome. -/
inductive DateStr where
  | invalid : DateStr
  | valid : Int → DateStr
  deriving DecidableEq, Repr

/-- `new Date(s)`: `none` when `isNaN(d.getTime())`, else the time value. -/
def DateStr.parse : DateStr → Option Int
  | .invalid => none
  | .valid v => some v

/-- The distinguishable errors thrown by the service (each is a distinct
`Error` message in the source). -/
inductive BookingError where
  | invalidDateFormat
  | invalidDateRange
  | roomAlreadyBooked
  | storageFailure
  | notFound
  | notAuthorized
  | alreadyClosed
  deriving DecidableEq, Repr

/-- The storage operations `createBooking` can issue through `pgPool.query`. -/
inductive QueryOp where
  | beginTxn
  | selectConflicts
  | insertBooking
  | commitTxn
  | rollbackTxn
  deriving DecidableEq, Repr

/-- Parameters of `createBooking`. -/
structure CreateParams where
  userId : String
  roomId : String
  startDate : DateStr
  endDate : DateStr
  deriving DecidableEq, Repr

deriving instance DecidableEq for Except

/-- Result of a `createBooking` call: the returned value or thrown error, the
committed store afterwards, and the sequence of storage operations issued. -/
structure CreateResult where
  res : Except BookingError Booking
  store : Store
  trace : List QueryOp
  deriving DecidableEq, Repr

/-- The `WHERE` clause of the conflict query:
`room_id = $1 AND start_date < $2 AND end_date > $3 AND status != 'CANCELLED'`
with `$1 = roomId`, `$2 = endDate`, `$3 = startDate`. -/
def conflictsWith (roomId : String) (startD endD : Int) (b : Booking) : Bool :=
  b.room_id == roomId && b.start_date < endD && b.end_date > startD &&
    b.status != "CANCELLED"

/-- The interval-overlap predicate of the specification:
`[s1,e1)` and `[s2,e2)` overlap iff `s1 < e2 AND e1 > s2`. -/
def overlaps (s1 e1 s2 e2 : Int) : Bool :=
  s1 < e2 && e1 > s2

/-- `BookingService.createBooking`.  `fid` and `now` stand for the id and
`created_at` the database generates for the inserted row; `insertFails` and
`commitFails` are the storage-error oracles for the `INSERT` and `COMMIT`
queries.  Mirrors the source step by step:
validation (date format, then `end <= start`), `BEGIN`, locked conflict
`SELECT`, conflict → `ROLLBACK` + throw (the outer catch issues a second
`ROLLBACK`), otherwise `INSERT ... status 'CONFIRMED'` then `COMMIT`; any
error thrown inside the transaction reaches the catch block, which rolls
back before re-throwing. -/
def createBooking (st : Store) (p : CreateParams) (fid : String) (now : Int)
    (insertFails commitFails : Bool) : CreateResult :=
  match p.startDate.parse, p.endDate.parse with
  | none, _ => ⟨.error .invalidDateFormat, st, []⟩
  | some _, none => ⟨.error .invalidDateFormat, st, []⟩
  | some s, some e =>
    if e ≤ s then ⟨.error .invalidDateRange, st, []⟩
    else
      let conflicts := st.filter (conflictsWith p.roomId s e)
      if 0 < conflicts.length then
        ⟨.error .roomAlreadyBooked, st,
          [.beginTxn, .selectConflicts, .rollbackTxn, .rollbackTxn]⟩
      else if insertFails then
        ⟨.error .storageFailure, st,
          [.beginTxn, .selectConflicts, .insertBooking, .rollbackTxn]⟩
      else if commitFails then
        ⟨.error .storageFailure, st,
          [.beginTxn, .selectConflicts, .insertBooking, .commitTxn, .rollbackTxn]⟩
      else
        let nb : Booking := ⟨fid, p.userId, p.roomId, s, e, "CONFIRMED", now⟩
        ⟨.ok nb, st ++ [nb],
          [.beginTxn, .selectConflicts, .insertBooking, .commitTxn]⟩

/-- The row update performed by `closeBooking`'s
`UPDATE bookings SET status = 'CLOSED' WHERE id = $1`. -/
def closeUpd (bookingId : String) (b : Booking) : Booking :=
  if b.id == bookingId then { b with status := "CLOSED" } else b

/-- `BookingService.closeBooking`: fetch the row by id (`NotFound` when the
select returns no row), check ownership, check the status guard
(`status === 'CLOSED' || status === 'closed'`), then update the status to
`'CLOSED'` and return the updated row. -/
def closeBooking (st : Store) (bookingId userId : String) :
    Except BookingError Booking × Store :=
  match st.find? (fun b => b.id == bookingId) with
  | none => (.error .notFound, st)
  | some b =>
    if b.user_id != userId then (.error .notAuthorized, st)
    else if b.status == "CLOSED" || b.status == "closed" then
      (.error .alreadyClosed, st)
    else
      (.ok { b with status := "CLOSED" }, st.map (closeUpd bookingId))

/-- A row of the `rooms` table (the columns `getAllBookings` joins in). -/
structure Room where
  id : String
  name : String
  location : String
  deriving DecidableEq, Repr

/-- A booking row joined (`LEFT JOIN rooms r ON r.id = b.room_id`) with its
room's name and location. -/
structure BookingWithDetails where
  id : String
  user_id : String
  room_id : String
  start_date : Int
  end_date : Int
  status : String
  created_at : Int
  room_name : Option String
  location : Option String
  deriving DecidableEq, Repr

/-- The `LEFT JOIN rooms r ON r.id = b.room_id` for a single booking row
(room ids are unique, so at most one room matches). -/
def joinRoom (rooms : List Room) (b : Booking) : BookingWithDetails :=
  match rooms.find? (fun r => r.id == b.room_id) with
  | some r => ⟨b.id, b.user_id, b.room_id, b.start_date, b.end_date, b.status,
      b.created_at, some r.name, some r.location⟩
  | none => ⟨b.id, b.user_id, b.room_id, b.start_date, b.end_date, b.status,
      b.created_at, none, none⟩

/-- `ORDER BY b.start_date DESC`: row `a` may precede row `b` iff
`b.start_date ≤ a.start_date`. -/
def dateDesc (a b : BookingWithDetails) : Prop :=
  b.start_date ≤ a.start_date

instance : DecidableRel dateDesc := fun a b =>
  inferInstanceAs (Decidable (b.start_date ≤ a.start_date))

instance : IsTotal BookingWithDetails dateDesc :=
  ⟨fun a b => le_total b.start_date a.start_date⟩

instance : IsTrans BookingWithDetails dateDesc :=
  ⟨fun _ _ _ h1 h2 => le_trans h2 h1⟩

/-- `BookingService.getAllBookings`: with a truthy `userId` (JavaScript
truthiness: a non-empty string) the filtered query runs, otherwise the
unfiltered one; both join room details and order by `start_date` descending
(the SQL `ORDER BY` is modelled by a sort with the `dateDesc` relation). -/
def getAllBookings (st : Store) (rooms : List Room) (userId : Option String) :
    List BookingWithDetails :=
  match userId with
  | some uid =>
    if uid == "" then
      List.insertionSort dateDesc (st.map (joinRoom rooms))
    else
      List.insertionSort dateDesc
        ((st.filter (fun b => b.user_id == uid)).map (joinRoom rooms))
  | none => List.insertionSort dateDesc (st.map (joinRoom rooms))

/-- Two booking rows are compatible when, if they are for the same room and
neither is CANCELLED, their date intervals do not overlap. -/
def roomCompat (b1 b2 : Booking) : Prop :=
  b1.room_id = b2.room_id → b1.status ≠ "CANCELLED" → b2.status ≠ "CANCELLED" →
    overlaps b1.start_date b1.end_date b2.start_date b2.end_date = false

/-- The no-overlap invariant of the data model: for any room, the
non-CANCELLED bookings are pairwise non-overlapping on their date
intervals. -/
def noOverlap (st : Store) : Prop :=
  st.Pairwise roomCompat

example : createBooking [] ⟨"u1", "r1", .valid 0, .valid 2⟩ "b1" 5 false false =
    ⟨.ok ⟨"b1", "u1", "r1", 0, 2, "CONFIRMED", 5⟩,
      [⟨"b1", "u1", "r1", 0, 2, "CONFIRMED", 5⟩],
      [.beginTxn, .selectConflicts, .insertBooking, .commitTxn]⟩ := by
  rfl

/-! ### Branch characterizations of `createBooking` -/

theorem parse_eq_some (d : DateStr) (v : Int) (h : d.parse = some v) :
    d = .valid v := by
  cases d with
  | invalid => simp [DateStr.parse] at h
  | valid w => simp [DateStr.parse] at h; rw [h]

theorem createBooking_valid_eq (st : Store) (u r fid : String) (s e now : Int)
    (iF cF : Bool) :
    createBooking st ⟨u, r, .valid s, .valid e⟩ fid now iF cF =
      (if e ≤ s then ⟨.error .invalidDateRange, st, []⟩
       else if 0 < (st.filter (conflictsWith r s e)).length then
         ⟨.error .roomAlreadyBooked, st,
           [.beginTxn, .selectConflicts, .rollbackTxn, .rollbackTxn]⟩
       else if iF then
         ⟨.error .storageFailure, st,
           [.beginTxn, .selectConflicts, .insertBooking, .rollbackTxn]⟩
       else if cF then
         ⟨.error .storageFailure, st,
           [.beginTxn, .selectConflicts, .insertBooking, .commitTxn, .rollbackTxn]⟩
       else
         ⟨.ok ⟨fid, u, r, s, e, "CONFIRMED", now⟩,
           st ++ [⟨fid, u, r, s, e, "CONFIRMED", now⟩],
           [.beginTxn, .selectConflicts, .insertBooking, .commitTxn]⟩ :
        CreateResult) := rfl

theorem createBooking_of_badParse (st : Store) (p : CreateParams) (fid : String)
    (now : Int) (iF cF : Bool)
    (h : p.startDate.parse = none ∨ p.endDate.parse = none) :
    createBooking st p fid now iF cF = ⟨.error .invalidDateFormat, st, []⟩ := by
  obtain ⟨u, r, sd, ed⟩ := p
  simp only at h
  cases sd with
  | invalid => rfl
  | valid v =>
    cases ed with
    | invalid => rfl
    | valid w => simp [DateStr.parse] at h

theorem createBooking_of_badRange (st : Store) (p : CreateParams) (fid : String)
    (now : Int) (iF cF : Bool) (s e : Int)
    (hs : p.startDate.parse = some s) (he : p.endDate.parse = some e)
    (hse : e ≤ s) :
    createBooking st p fid now iF cF = ⟨.error .invalidDateRange, st, []⟩ := by
  obtain ⟨u, r, sd, ed⟩ := p
  simp only at hs he
  obtain rfl := parse_eq_some sd s hs
  obtain rfl := parse_eq_some ed e he
  rw [createBooking_valid_eq, if_pos hse]

theorem createBooking_of_conflict (st : Store) (p : CreateParams) (fid : String)
    (now : Int) (iF cF : Bool) (s e : Int)
    (hs : p.startDate.parse = some s) (he : p.endDate.parse = some e)
    (hse : ¬ e ≤ s) (hc : st.filter (conflictsWith p.roomId s e) ≠ []) :
    createBooking st p fid now iF cF =
      ⟨.error .roomAlreadyBooked, st,
        [.beginTxn, .selectConflicts, .rollbackTxn, .rollbackTxn]⟩ := by
  obtain ⟨u, r, sd, ed⟩ := p
  simp only at hs he hc
  obtain rfl := parse_eq_some sd s hs
  obtain rfl := parse_eq_some ed e he
  rw [createBooking_valid_eq, if_neg hse, if_pos (List.length_pos.mpr hc)]

theorem createBooking_of_insertFail (st : Store) (p : CreateParams) (fid : String)
    (now : Int) (cF : Bool) (s e : Int)
    (hs : p.startDate.parse = some s) (he : p.endDate.parse = some e)
    (hse : ¬ e ≤ s) (hc : st.filter (conflictsWith p.roomId s e) = []) :
    createBooking st p fid now true cF =
      ⟨.error .storageFailure, st,
        [.beginTxn, .selectConflicts, .insertBooking, .rollbackTxn]⟩ := by
  obtain ⟨u, r, sd, ed⟩ := p
  simp only at hs he hc
  obtain rfl := parse_eq_some sd s hs
  obtain rfl := parse_eq_some ed e he
  rw [createBooking_valid_eq, if_neg hse, if_neg (by simp [hc])]
  rfl

theorem createBooking_of_commitFail (st : Store) (p : CreateParams) (fid : String)
    (now : Int) (s e : Int)
    (hs : p.startDate.parse = some s) (he : p.endDate.parse = some e)
    (hse : ¬ e ≤ s) (hc : st.filter (conflictsWith p.roomId s e) = []) :
    createBooking st p fid now false true =
      ⟨.error .storageFailure, st,
        [.beginTxn, .selectConflicts, .insertBooking, .commitTxn, .rollbackTxn]⟩ := by
  obtain ⟨u, r, sd, ed⟩ := p
  simp only at hs he hc
  obtain rfl := parse_eq_some sd s hs
  obtain rfl := parse_eq_some ed e he
  rw [createBooking_valid_eq, if_neg hse, if_neg (by simp [hc])]
  rfl

theorem createBooking_of_ok (st : Store) (p : CreateParams) (fid : String)
    (now : Int) (s e : Int)
    (hs : p.startDate.parse = some s) (he : p.endDate.parse = some e)
    (hse : ¬ e ≤ s) (hc : st.filter (conflictsWith p.roomId s e) = []) :
    createBooking st p fid now false false =
      ⟨.ok ⟨fid, p.userId, p.roomId, s, e, "CONFIRMED", now⟩,
        st ++ [⟨fid, p.userId, p.roomId, s, e, "CONFIRMED", now⟩],
        [.beginTxn, .selectConflicts, .insertBooking, .commitTxn]⟩ := by
  obtain ⟨u, r, sd, ed⟩ := p
  simp only at hs he hc ⊢
  obtain rfl := parse_eq_some sd s hs
  obtain rfl := parse_eq_some ed e he
  rw [createBooking_valid_eq, if_neg hse, if_neg (by simp [hc])]
  rfl

example : (createBooking [⟨"b1", "u1", "r1", 0, 2, "CONFIRMED", 5⟩]
    ⟨"u2", "r1", .valid 1, .valid 3⟩ "b2" 6 false false).res =
    .error .roomAlreadyBooked := by
  rfl

example : closeBooking [⟨"b1", "u1", "r1", 0, 2, "CONFIRMED", 5⟩] "b1" "u1" =
    (.ok ⟨"b1", "u1", "r1", 0, 2, "CLOSED", 5⟩,
      [⟨"b1", "u1", "r1", 0, 2, "CLOSED", 5⟩]) := by
  rfl

/-! ### Auxiliary facts about the conflict predicate and the invariant -/

theorem conflictsWith_eq_overlaps (roomId : String) (sD eD : Int) (b : Booking) :
    conflictsWith roomId sD eD b =
      (b.room_id == roomId && overlaps b.start_date b.end_date sD eD &&
        b.status != "CANCELLED") := by
  simp [conflictsWith, overlaps, Bool.and_assoc]

theorem conflictsWith_false_of_cover (roomId : String) (sD eD : Int) (b : Booking)
    (h : b.room_id = roomId → overlaps b.start_date b.end_date sD eD = true →
      b.status = "CANCELLED") :
    ¬ conflictsWith roomId sD eD b = true := by
  intro hcw
  rw [conflictsWith_eq_overlaps] at hcw
  simp only [Bool.and_eq_true, beq_iff_eq, bne_iff_ne, ne_eq] at hcw
  obtain ⟨⟨hroom, hov⟩, hst⟩ := hcw
  exact hst (h hroom hov)

/-- Claim C5: date validation.  `createBooking` fails with the invalid-date-range
error when the end date equals or precedes the start date, and with the
invalid-date-format error when either date string does not parse; in every
such case the store is untouched and no storage operation at all is issued
(the trace of issued queries is empty, so no transaction is begun). -/
theorem createBooking_date_validation (st : Store) (p : CreateParams)
    (fid : String) (now : Int) (iF cF : Bool) :
    ((p.startDate.parse = none ∨ p.endDate.parse = none) →
      createBooking st p fid now iF cF = ⟨.error .invalidDateFormat, st, []⟩) ∧
    (∀ s e : Int, p.startDate.parse = some s → p.endDate.parse = some e →
      (e = s ∨ e < s) →
      createBooking st p fid now iF cF = ⟨.error .invalidDateRange, st, []⟩) := by
  refine ⟨createBooking_of_badParse st p fid now iF cF, ?_⟩
  intro s e hs he hle
  exact createBooking_of_badRange st p fid now iF cF s e hs he
    (hle.elim (fun h => h.le) (fun h => h.le))

theorem createBooking_date_validation_witness :
    createBooking [] ⟨"u1", "r1", .invalid, .valid 1⟩ "b1" 0 false false =
      ⟨.error .invalidDateFormat, [], []⟩ ∧
    createBooking [] ⟨"u1", "r1", .valid 1, .valid 1⟩ "b1" 0 false false =
      ⟨.error .invalidDateRange, [], []⟩ :=
  ⟨(createBooking_date_validation [] ⟨"u1", "r1", .invalid, .valid 1⟩
      "b1" 0 false false).1 (Or.inl rfl),
   (createBooking_date_validation [] ⟨"u1", "r1", .valid 1, .valid 1⟩
      "b1" 0 false false).2 1 1 rfl rfl (Or.inl rfl)⟩

/-- Claim C3: atomicity.  Whenever `createBooking` fails — for any input and
any outcome of the insert/commit oracles — the committed store is left exactly
as it was; if the failure happened after the transaction began (`BEGIN` is in
the trace) a `ROLLBACK` was issued before the error propagated; and in the
conflict case no `INSERT` is ever issued. -/
theorem createBooking_atomicity (st : Store) (p : CreateParams) (fid : String)
    (now : Int) (iF cF : Bool) (err : BookingError)
    (h : (createBooking st p fid now iF cF).res = .error err) :
    (createBooking st p fid now iF cF).store = st ∧
    (QueryOp.beginTxn ∈ (createBooking st p fid now iF cF).trace →
      QueryOp.rollbackTxn ∈ (createBooking st p fid now iF cF).trace) ∧
    (err = .roomAlreadyBooked →
      QueryOp.insertBooking ∉ (createBooking st p fid now iF cF).trace) := by
  obtain ⟨u, r, sd, ed⟩ := p
  cases sd with
  | invalid =>
    rw [createBooking_of_badParse st ⟨u, r, .invalid, ed⟩ fid now iF cF
      (Or.inl rfl)] at h ⊢
    exact ⟨rfl, by intro hm; simp at hm, by intro _ hm; simp at hm⟩
  | valid v =>
    cases ed with
    | invalid =>
      rw [createBooking_of_badParse st ⟨u, r, .valid v, .invalid⟩ fid now iF cF
        (Or.inr rfl)] at h ⊢
      exact ⟨rfl, by intro hm; simp at hm, by intro _ hm; simp at hm⟩
    | valid w =>
      rcases le_or_lt w v with h1 | h1
      · rw [createBooking_of_badRange st ⟨u, r, .valid v, .valid w⟩ fid now iF cF
          v w rfl rfl h1] at h ⊢
        exact ⟨rfl, by intro hm; simp at hm, by intro _ hm; simp at hm⟩
      · by_cases hc : List.filter (conflictsWith r v w) st = []
        · cases iF with
          | true =>
            rw [createBooking_of_insertFail st ⟨u, r, .valid v, .valid w⟩ fid now
              cF v w rfl rfl (not_le.mpr h1) hc] at h ⊢
            refine ⟨rfl, fun _ => by simp, fun h3 => ?_⟩
            simp only [Except.error.injEq] at h
            rw [h3] at h
            simp at h
          | false =>
            cases cF with
            | true =>
              rw [createBooking_of_commitFail st ⟨u, r, .valid v, .valid w⟩ fid
                now v w rfl rfl (not_le.mpr h1) hc] at h ⊢
              refine ⟨rfl, fun _ => by simp, fun h3 => ?_⟩
              simp only [Except.error.injEq] at h
              rw [h3] at h
              simp at h
            | false =>
              rw [createBooking_of_ok st ⟨u, r, .valid v, .valid w⟩ fid now
                v w rfl rfl (not_le.mpr h1) hc] at h
              simp at h
        · rw [createBooking_of_conflict st ⟨u, r, .valid v, .valid w⟩ fid now
            iF cF v w rfl rfl (not_le.mpr h1) hc] at h ⊢
          exact ⟨rfl, fun _ => by simp, fun _ => by simp⟩

theorem createBooking_atomicity_witness :
    ((createBooking [⟨"b0", "u1", "r1", 0, 2, "CONFIRMED", 5⟩]
        ⟨"u2", "r1", .valid 1, .valid 3⟩ "b1" 6 false false).res =
      .error .roomAlreadyBooked) ∧
    ((createBooking [⟨"b0", "u1", "r1", 0, 2, "CONFIRMED", 5⟩]
        ⟨"u2", "r1", .valid 1, .valid 3⟩ "b1" 6 false false).store =
      [⟨"b0", "u1", "r1", 0, 2, "CONFIRMED", 5⟩] ∧
    (QueryOp.beginTxn ∈ (createBooking [⟨"b0", "u1", "r1", 0, 2, "CONFIRMED", 5⟩]
        ⟨"u2", "r1", .valid 1, .valid 3⟩ "b1" 6 false false).trace →
      QueryOp.rollbackTxn ∈ (createBooking [⟨"b0", "u1", "r1", 0, 2, "CONFIRMED", 5⟩]
        ⟨"u2", "r1", .valid 1, .valid 3⟩ "b1" 6 false false).trace) ∧
    (BookingError.roomAlreadyBooked = .roomAlreadyBooked →
      QueryOp.insertBooking ∉ (createBooking [⟨"b0", "u1", "r1", 0, 2, "CONFIRMED", 5⟩]
        ⟨"u2", "r1", .valid 1, .valid 3⟩ "b1" 6 false false).trace)) :=
  ⟨rfl, createBooking_atomicity [⟨"b0", "u1", "r1", 0, 2, "CONFIRMED", 5⟩]
    ⟨"u2", "r1", .valid 1, .valid 3⟩ "b1" 6 false false .roomAlreadyBooked rfl⟩

/-- Claim C4: boundary of overlap.  For `d1 < d2 < d3`, a room with an existing
CONFIRMED booking over `[d1,d2)` and a `createBooking` for the same room over
`[d2,d3)`: the overlap predicate is false for the touching intervals, the
conflict query returns no rows, and the call succeeds, inserting the
back-to-back booking. -/
theorem createBooking_back_to_back (d1 d2 d3 : Int)
    (bid uid uid2 rid fid : String) (now now2 : Int)
    (_h12 : d1 < d2) (h23 : d2 < d3) :
    overlaps d1 d2 d2 d3 = false ∧
    List.filter (conflictsWith rid d2 d3)
      [⟨bid, uid, rid, d1, d2, "CONFIRMED", now⟩] = [] ∧
    createBooking [⟨bid, uid, rid, d1, d2, "CONFIRMED", now⟩]
        ⟨uid2, rid, .valid d2, .valid d3⟩ fid now2 false false =
      ⟨.ok ⟨fid, uid2, rid, d2, d3, "CONFIRMED", now2⟩,
        [⟨bid, uid, rid, d1, d2, "CONFIRMED", now⟩,
         ⟨fid, uid2, rid, d2, d3, "CONFIRMED", now2⟩],
        [.beginTxn, .selectConflicts, .insertBooking, .commitTxn]⟩ := by
  have hov : overlaps d1 d2 d2 d3 = false := by
    simp [overlaps]
  have hflt : List.filter (conflictsWith rid d2 d3)
      [⟨bid, uid, rid, d1, d2, "CONFIRMED", now⟩] = [] := by
    rw [List.filter_eq_nil_iff]
    intro b hb
    simp only [List.mem_singleton] at hb
    subst hb
    exact conflictsWith_false_of_cover rid d2 d3 _
      (fun _ hov2 => by rw [hov] at hov2; exact absurd hov2 (by simp))
  refine ⟨hov, hflt, ?_⟩
  exact createBooking_of_ok _ ⟨uid2, rid, .valid d2, .valid d3⟩ fid now2 d2 d3
    rfl rfl (not_le.mpr h23) hflt

theorem createBooking_back_to_back_witness :
    (0 : Int) < 1 ∧ (1 : Int) < 2 ∧
    (overlaps 0 1 1 2 = false ∧
     List.filter (conflictsWith "r1" 1 2)
       [⟨"b0", "u1", "r1", 0, 1, "CONFIRMED", 5⟩] = [] ∧
     createBooking [⟨"b0", "u1", "r1", 0, 1, "CONFIRMED", 5⟩]
         ⟨"u2", "r1", .valid 1, .valid 2⟩ "b1" 6 false false =
       ⟨.ok ⟨"b1", "u2", "r1", 1, 2, "CONFIRMED", 6⟩,
         [⟨"b0", "u1", "r1", 0, 1, "CONFIRMED", 5⟩,
          ⟨"b1", "u2", "r1", 1, 2, "CONFIRMED", 6⟩],
         [.beginTxn, .selectConflicts, .insertBooking, .commitTxn]⟩) :=
  ⟨by decide, by decide,
   createBooking_back_to_back 0 1 2 "b0" "u1" "u2" "r1" "b1" 5 6
     (by decide) (by decide)⟩

/-- Claim C7: conflict detection considers only non-cancelled bookings.  If
every booking of the requested room whose interval overlaps the request is
CANCELLED, the conflict query returns no rows and the booking is inserted
successfully — an overlapping CANCELLED booking never causes the
room-already-booked error. -/
theorem createBooking_ignores_cancelled (st : Store) (p : CreateParams)
    (fid : String) (now s e : Int)
    (hs : p.startDate.parse = some s) (he : p.endDate.parse = some e)
    (hse : s < e)
    (hcov : ∀ b ∈ st, b.room_id = p.roomId →
      overlaps b.start_date b.end_date s e = true → b.status = "CANCELLED") :
    st.filter (conflictsWith p.roomId s e) = [] ∧
    createBooking st p fid now false false =
      ⟨.ok ⟨fid, p.userId, p.roomId, s, e, "CONFIRMED", now⟩,
        st ++ [⟨fid, p.userId, p.roomId, s, e, "CONFIRMED", now⟩],
        [.beginTxn, .selectConflicts, .insertBooking, .commitTxn]⟩ := by
  have hflt : st.filter (conflictsWith p.roomId s e) = [] := by
    rw [List.filter_eq_nil_iff]
    intro b hb
    exact conflictsWith_false_of_cover p.roomId s e b (hcov b hb)
  exact ⟨hflt, createBooking_of_ok st p fid now s e hs he (not_le.mpr hse) hflt⟩

theorem createBooking_ignores_cancelled_witness :
    List.filter (conflictsWith "r1" 0 2)
      [⟨"b0", "u1", "r1", 0, 2, "CANCELLED", 5⟩] = [] ∧
    createBooking [⟨"b0", "u1", "r1", 0, 2, "CANCELLED", 5⟩]
        ⟨"u2", "r1", .valid 0, .valid 2⟩ "b1" 6 false false =
      ⟨.ok ⟨"b1", "u2", "r1", 0, 2, "CONFIRMED", 6⟩,
        [⟨"b0", "u1", "r1", 0, 2, "CANCELLED", 5⟩,
         ⟨"b1", "u2", "r1", 0, 2, "CONFIRMED", 6⟩],
        [.beginTxn, .selectConflicts, .insertBooking, .commitTxn]⟩ :=
  createBooking_ignores_cancelled [⟨"b0", "u1", "r1", 0, 2, "CANCELLED", 5⟩]
    ⟨"u2", "r1", .valid 0, .valid 2⟩ "b1" 6 0 2 rfl rfl (by decide)
    (by intro b hb _ _; simp only [List.mem_singleton] at hb; rw [hb])

/-- Claim C1: the no-overlap invariant is preserved by every `createBooking`
call.  If the store's non-CANCELLED bookings are pairwise non-overlapping per
room, then after any call — succeeding or failing, under any insert/commit
oracle outcome — they still are; in particular a successful call only adds a
CONFIRMED booking that overlaps no existing non-CANCELLED booking of its
room. -/
theorem createBooking_preserves_noOverlap (st : Store) (p : CreateParams)
    (fid : String) (now : Int) (iF cF : Bool) (h : noOverlap st) :
    noOverlap (createBooking st p fid now iF cF).store := by
  obtain ⟨u, r, sd, ed⟩ := p
  cases sd with
  | invalid => exact h
  | valid v =>
    cases ed with
    | invalid => exact h
    | valid w =>
      rw [createBooking_valid_eq]
      by_cases h1 : w ≤ v
      · rw [if_pos h1]; exact h
      · rw [if_neg h1]
        by_cases h2 : 0 < (st.filter (conflictsWith r v w)).length
        · rw [if_pos h2]; exact h
        · rw [if_neg h2]
          have hflt : st.filter (conflictsWith r v w) = [] := by
            cases hf : st.filter (conflictsWith r v w) with
            | nil => rfl
            | cons a l => rw [hf] at h2; simp at h2
          cases iF with
          | true => exact h
          | false =>
            cases cF with
            | true => exact h
            | false =>
              simp only [Bool.false_eq_true, if_false]
              show noOverlap (st ++ [⟨fid, u, r, v, w, "CONFIRMED", now⟩])
              rw [noOverlap, List.pairwise_append]
              refine ⟨h, List.pairwise_singleton _ _, ?_⟩
              intro a ha b hb
              simp only [List.mem_singleton] at hb
              subst hb
              intro hroom hsa _
              have hnc : ¬ conflictsWith r v w a = true :=
                List.filter_eq_nil_iff.mp hflt a ha
              rw [conflictsWith_eq_overlaps] at hnc
              simp only [Bool.and_eq_true, beq_iff_eq, bne_iff_ne, ne_eq,
                not_and] at hnc
              by_cases hov : overlaps a.start_date a.end_date v w = true
              · exact absurd hsa (hnc ⟨hroom, hov⟩)
              · exact Bool.not_eq_true _ |>.mp hov
  
theorem createBooking_preserves_noOverlap_witness :
    noOverlap [⟨"b0", "u1", "r1", 5, 7, "CONFIRMED", 1⟩] ∧
    noOverlap (createBooking [⟨"b0", "u1", "r1", 5, 7, "CONFIRMED", 1⟩]
      ⟨"u2", "r1", .valid 0, .valid 2⟩ "b1" 6 false false).store :=
  ⟨List.pairwise_singleton _ _,
   createBooking_preserves_noOverlap [⟨"b0", "u1", "r1", 5, 7, "CONFIRMED", 1⟩]
     ⟨"u2", "r1", .valid 0, .valid 2⟩ "b1" 6 false false
     (List.pairwise_singleton _ _)⟩

/-! ### Facts about `closeBooking` -/

theorem closeUpd_id (bookingId : String) (b : Booking) :
    (closeUpd bookingId b).id = b.id := by
  unfold closeUpd
  split <;> rfl

theorem find?_map_closeUpd (st : Store) (bookingId : String) :
    (st.map (closeUpd bookingId)).find? (fun b => b.id == bookingId) =
      (st.find? (fun b => b.id == bookingId)).map (closeUpd bookingId) := by
  induction st with
  | nil => rfl
  | cons a l ih =>
    have hup : ((closeUpd bookingId a).id == bookingId) = (a.id == bookingId) := by
      rw [closeUpd_id]
    rw [List.map_cons, List.find?_cons, List.find?_cons, hup]
    cases hid : (a.id == bookingId) with
    | true => rfl
    | false => exact ih

/-- Claim C6: the decision order of `closeBooking`.  On a store whose statuses
are among the data model's three values: the call fails with the not-found
error iff no booking with the given id exists; given the fetched booking, it
fails with the not-authorized error iff its `user_id` differs from the
requesting user; for the owner it fails with the already-closed error iff the
status is CLOSED; otherwise it sets the status to CLOSED, persists it and
returns the updated booking — and a second owner call on the resulting store
fails with the already-closed error. -/
theorem closeBooking_spec (st : Store) (bookingId userId : String)
    (hwf : ∀ b ∈ st, b.status = "CONFIRMED" ∨ b.status = "CLOSED" ∨
      b.status = "CANCELLED") :
    ((closeBooking st bookingId userId).1 = .error .notFound ↔
      ¬ ∃ b ∈ st, b.id = bookingId) ∧
    (∀ b, st.find? (fun x => x.id == bookingId) = some b →
      ((closeBooking st bookingId userId).1 = .error .notAuthorized ↔
        b.user_id ≠ userId) ∧
      (b.user_id = userId →
        ((closeBooking st bookingId userId).1 = .error .alreadyClosed ↔
          b.status = "CLOSED")) ∧
      (b.user_id = userId → b.status ≠ "CLOSED" →
        closeBooking st bookingId userId =
          (.ok { b with status := "CLOSED" }, st.map (closeUpd bookingId)) ∧
        (closeBooking (st.map (closeUpd bookingId)) bookingId userId).1 =
          .error .alreadyClosed)) := by
  constructor
  · cases hf : st.find? (fun x => x.id == bookingId) with
    | none =>
      have hall := List.find?_eq_none.mp hf
      simp only [closeBooking, hf]
      constructor
      · rintro - ⟨b, hb, hbid⟩
        exact hall b hb (by simp [hbid])
      · intro _
        trivial
    | some b =>
      have hbid : b.id = bookingId := by simpa using List.find?_some hf
      have hmem : b ∈ st := List.mem_of_find?_eq_some hf
      simp only [closeBooking, hf]
      constructor
      · intro hres
        exfalso
        by_cases h1 : (b.user_id != userId) = true
        · rw [if_pos h1] at hres
          simp at hres
        · rw [if_neg h1] at hres
          by_cases h2 : (b.status == "CLOSED" || b.status == "closed") = true
          · rw [if_pos h2] at hres
            simp at hres
          · rw [if_neg h2] at hres
            simp at hres
      · intro hnone
        exact absurd ⟨b, hmem, hbid⟩ hnone
  · intro b hf
    have hbid : b.id = bookingId := by simpa using List.find?_some hf
    have hmem : b ∈ st := List.mem_of_find?_eq_some hf
    refine ⟨?_, ?_, ?_⟩
    · simp only [closeBooking, hf]
      by_cases h1 : (b.user_id != userId) = true
      · rw [if_pos h1]
        simp only [bne_iff_ne, ne_eq] at h1
        simp [h1]
      · rw [if_neg h1]
        simp only [bne_iff_ne, ne_eq, not_not] at h1
        by_cases h2 : (b.status == "CLOSED" || b.status == "closed") = true
        · rw [if_pos h2]
          simp [h1]
        · rw [if_neg h2]
          simp [h1]
    · intro hu
      simp only [closeBooking, hf]
      rw [if_neg (by simp [hu])]
      by_cases h2 : (b.status == "CLOSED" || b.status == "closed") = true
      · rw [if_pos h2]
        simp only [Bool.or_eq_true, beq_iff_eq] at h2
        have hcl : b.status = "CLOSED" := by
          rcases hwf b hmem with h | h | h
          · rcases h2 with h2 | h2 <;> rw [h] at h2 <;> simp at h2
          · exact h
          · rcases h2 with h2 | h2 <;> rw [h] at h2 <;> simp at h2
        simp [hcl]
      · rw [if_neg h2]
        simp only [Bool.or_eq_true, beq_iff_eq, not_or] at h2
        simp [h2.1]
    · intro hu hncl
      have h2 : ¬ (b.status == "CLOSED" || b.status == "closed") = true := by
        simp only [Bool.or_eq_true, beq_iff_eq, not_or]
        refine ⟨hncl, ?_⟩
        rcases hwf b hmem with h | h | h <;> rw [h] <;> simp
      have hfst : closeBooking st bookingId userId =
          (.ok { b with status := "CLOSED" }, st.map (closeUpd bookingId)) := by
        simp only [closeBooking, hf]
        rw [if_neg (by simp [hu]), if_neg h2]
      refine ⟨hfst, ?_⟩
      have hf2 : (st.map (closeUpd bookingId)).find?
          (fun x => x.id == bookingId) = some { b with status := "CLOSED" } := by
        rw [find?_map_closeUpd, hf]
        show some (closeUpd bookingId b) = some { b with status := "CLOSED" }
        unfold closeUpd
        rw [if_pos (by simp [hbid])]
      simp only [closeBooking, hf2]
      rw [if_neg (by simp [hu]), if_pos (by simp)]

theorem closeBooking_spec_witness :
    (closeBooking [⟨"b1", "u1", "r1", 0, 2, "CONFIRMED", 7⟩] "b1" "u1" =
      (.ok ⟨"b1", "u1", "r1", 0, 2, "CLOSED", 7⟩,
        [⟨"b1", "u1", "r1", 0, 2, "CLOSED", 7⟩])) ∧
    (closeBooking [⟨"b1", "u1", "r1", 0, 2, "CLOSED", 7⟩] "b1" "u1").1 =
      .error .alreadyClosed := by
  have h := (closeBooking_spec [⟨"b1", "u1", "r1", 0, 2, "CONFIRMED", 7⟩]
    "b1" "u1" (by simp)).2 ⟨"b1", "u1", "r1", 0, 2, "CONFIRMED", 7⟩ rfl
  have h3 := h.2.2 rfl (by simp)
  exact ⟨h3.1, h3.2⟩

/-- Claim C9: error precedence in `closeBooking`.  A requesting user who is
not the owner receives the not-authorized error even when the booking's
status is already CLOSED: the ownership check runs before the already-closed
check, and the store is left unchanged. -/
theorem closeBooking_auth_precedes_closed (st : Store) (bookingId userId : String)
    (b : Booking) (hf : st.find? (fun x => x.id == bookingId) = some b)
    (_hcl : b.status = "CLOSED") (hu : b.user_id ≠ userId) :
    closeBooking st bookingId userId = (.error .notAuthorized, st) := by
  simp only [closeBooking, hf]
  rw [if_pos (by simp [bne_iff_ne, hu])]

theorem closeBooking_auth_precedes_closed_witness :
    closeBooking [⟨"b1", "u1", "r1", 0, 2, "CLOSED", 7⟩] "b1" "u2" =
      (.error .notAuthorized, [⟨"b1", "u1", "r1", 0, 2, "CLOSED", 7⟩]) :=
  closeBooking_auth_precedes_closed [⟨"b1", "u1", "r1", 0, 2, "CLOSED", 7⟩]
    "b1" "u2" ⟨"b1", "u1", "r1", 0, 2, "CLOSED", 7⟩ rfl rfl (by decide)

/-- Claim C10: CANCELLED bookings can be closed.  When the owner calls
`closeBooking` on a booking whose status is CANCELLED, no guard rejects it:
the status guard only rejects CLOSED (and lowercase closed), so the call
succeeds, sets the status to CLOSED and returns the updated booking. -/
theorem closeBooking_cancelled_succeeds (st : Store) (bookingId userId : String)
    (b : Booking) (hf : st.find? (fun x => x.id == bookingId) = some b)
    (hst : b.status = "CANCELLED") (hu : b.user_id = userId) :
    closeBooking st bookingId userId =
      (.ok { b with status := "CLOSED" }, st.map (closeUpd bookingId)) := by
  simp only [closeBooking, hf]
  rw [if_neg (by simp [hu]), if_neg (by simp [hst])]

theorem closeBooking_cancelled_succeeds_witness :
    closeBooking [⟨"b1", "u1", "r1", 0, 2, "CANCELLED", 7⟩] "b1" "u1" =
      (.ok ⟨"b1", "u1", "r1", 0, 2, "CLOSED", 7⟩,
        [⟨"b1", "u1", "r1", 0, 2, "CLOSED", 7⟩]) :=
  closeBooking_cancelled_succeeds [⟨"b1", "u1", "r1", 0, 2, "CANCELLED", 7⟩]
    "b1" "u1" ⟨"b1", "u1", "r1", 0, 2, "CANCELLED", 7⟩ rfl rfl rfl

/-! ### `getAllBookings`: ordering and filtering -/

/-- Claim C8, counterexample.  `getAllBookings` guards the filtered query with
JavaScript truthiness (`if (userId)`), so a call with the empty-string userId
runs the unfiltered query: on a store whose only booking belongs to `"u1"`,
`getAllBookings` with userId `""` returns that booking, although its
`user_id` differs from the given userId (the claimed behaviour would return
the empty list, shown as the filtered result in the last conjunct). -/
theorem getAllBookings_empty_userId_cex :
    getAllBookings [⟨"b1", "u1", "r1", 0, 2, "CONFIRMED", 5⟩] [] (some "") =
      [⟨"b1", "u1", "r1", 0, 2, "CONFIRMED", 5, none, none⟩] ∧
    (⟨"b1", "u1", "r1", 0, 2, "CONFIRMED", 5, none, none⟩ :
      BookingWithDetails).user_id ≠ "" ∧
    (([⟨"b1", "u1", "r1", 0, 2, "CONFIRMED", 5⟩] : Store).filter
        (fun b => b.user_id == "")).map (joinRoom []) = [] :=
  ⟨rfl, by decide, rfl⟩

/-- Claim C8, amended: `getAllBookings` returns the bookings sorted by
`start_date` in descending order; when called with a non-empty userId it
returns exactly the bookings whose `user_id` equals that userId, each joined
with its room's details; when called without a userId — or with the empty
string, which the implementation's truthiness test treats as absent — it
returns all bookings. -/
theorem getAllBookings_spec (st : Store) (rooms : List Room)
    (o : Option String) :
    (getAllBookings st rooms o).Sorted dateDesc ∧
    (∀ uid, o = some uid → uid ≠ "" →
      (getAllBookings st rooms o).Perm
        ((st.filter (fun b => b.user_id == uid)).map (joinRoom rooms))) ∧
    ((o = none ∨ o = some "") →
      (getAllBookings st rooms o).Perm (st.map (joinRoom rooms))) := by
  refine ⟨?_, ?_, ?_⟩
  · cases o with
    | none => exact List.sorted_insertionSort dateDesc _
    | some uid =>
      simp only [getAllBookings]
      split
      · exact List.sorted_insertionSort dateDesc _
      · exact List.sorted_insertionSort dateDesc _
  · rintro uid rfl hne
    simp only [getAllBookings]
    rw [if_neg (by simpa using hne)]
    exact List.perm_insertionSort dateDesc _
  · rintro (rfl | rfl)
    · exact List.perm_insertionSort dateDesc _
    · simp only [getAllBookings]
      rw [if_pos (by simp)]
      exact List.perm_insertionSort dateDesc _

theorem getAllBookings_spec_witness :
    (getAllBookings [⟨"b1", "u1", "r1", 0, 2, "CONFIRMED", 5⟩,
        ⟨"b2", "u2", "r1", 4, 6, "CONFIRMED", 5⟩] [] (some "u1")).Sorted
      dateDesc ∧
    (getAllBookings [⟨"b1", "u1", "r1", 0, 2, "CONFIRMED", 5⟩,
        ⟨"b2", "u2", "r1", 4, 6, "CONFIRMED", 5⟩] [] (some "u1")).Perm
      ((([⟨"b1", "u1", "r1", 0, 2, "CONFIRMED", 5⟩,
          ⟨"b2", "u2", "r1", 4, 6, "CONFIRMED", 5⟩] : Store).filter
        (fun b => b.user_id == "u1")).map (joinRoom [])) :=
  ⟨(getAllBookings_spec [⟨"b1", "u1", "r1", 0, 2, "CONFIRMED", 5⟩,
      ⟨"b2", "u2", "r1", 4, 6, "CONFIRMED", 5⟩] [] (some "u1")).1,
   (getAllBookings_spec [⟨"b1", "u1", "r1", 0, 2, "CONFIRMED", 5⟩,
      ⟨"b2", "u2", "r1", 4, 6, "CONFIRMED", 5⟩] [] (some "u1")).2.1 "u1" rfl
     (by decide)⟩
